import Mathlib

/-!
Shallow embedding of `src/fetch_packages.py` (readme-analysis): the retry-wrapped
request executor `make_request`, the source fetchers, and the URL / parsing helpers,
together with theorems settling the frozen claims about them.

Machine-level conventions: Python exceptions that escape a function are modelled with
`Except` (the error string names the Python exception); `make_request` returning
`None` is `Option.none`; the network is an oracle function passed in explicitly.
-/

namespace FetchPackages

/-- A value returned by a successful Python call inside `make_request`: either an
HTTP-typed response (an object with a `status_code` attribute) or any other value
(e.g. slumber's parsed JSON, which has no `status_code`). -/
inductive PyResult (α : Type) where
  | httpResp (status : Nat) (body : α)
  | plain (v : α)
  deriving DecidableEq, Repr

/-- Outcome of one invocation of the wrapped callable in `make_request`:
a returned value, or one of the four exception classes the source catches. -/
inductive CallOutcome (α : Type) where
  | ok (r : PyResult α)
  | httpNotFound
  | httpServerError
  | connectionError
  | readTimeout
  deriving DecidableEq, Repr

/-- Observable result of `make_request`: the returned value (`none` models Python
`None`), the number of calls to the wrapped method, the number of `time.sleep`
pauses, and the number of `log_error` log lines. -/
structure MRResult (α : Type) where
  res : Option (PyResult α)
  calls : Nat
  sleeps : Nat
  errlogs : Nat
  deriving DecidableEq, Repr

/-- The `while try_again and attempts < MAX_ATTEMPTS` loop of `make_request`
(src/fetch_packages.py lines 39-62).  The fuel argument is
`MAX_ATTEMPTS - attempts`: `attempts` is incremented (with a sleep) exactly when an
iteration ends with `try_again` still true, i.e. after a transient
(`ConnectionError` / `ReadTimeout`) failure; every other outcome sets
`try_again = False` and the loop exits.  A non-200 `status_code` sets `res = None`;
`HttpNotFoundError` / `HttpServerError` leave `res` at its previous value, which is
`None` on every path that reaches them. -/
def mrLoop (op : Nat → CallOutcome α) : Nat → Nat → Nat → Nat → MRResult α
  | 0, calls, sleeps, logs => ⟨none, calls, sleeps, logs⟩
  | fuel+1, calls, sleeps, logs =>
    match op calls with
    | .ok (.httpResp s b) =>
        if s == 200 then ⟨some (.httpResp s b), calls+1, sleeps, logs⟩
        else ⟨none, calls+1, sleeps, logs+1⟩
    | .ok (.plain v) => ⟨some (.plain v), calls+1, sleeps, logs⟩
    | .httpNotFound => ⟨none, calls+1, sleeps, logs+1⟩
    | .httpServerError => ⟨none, calls+1, sleeps, logs+1⟩
    | .connectionError => mrLoop op fuel (calls+1) (sleeps+1) (logs+1)
    | .readTimeout => mrLoop op fuel (calls+1) (sleeps+1) (logs+1)

/-- `make_request` (src/fetch_packages.py lines 25-62): run the wrapped operation
with `MAX_ATTEMPTS = 5`, starting from `attempts = 0`, no sleeps, no logs.
The oracle `op k` gives the outcome of the (k+1)-st invocation. -/
def make_request (op : Nat → CallOutcome α) : MRResult α :=
  mrLoop op 5 0 0 0

/-- An operation that raises `ConnectionError` on every attempt. -/
def allConnErr : Nat → CallOutcome Unit := fun _ => .connectionError

/-- An operation that returns a 404-status response on the first attempt. -/
def resp404 : Nat → CallOutcome Unit := fun _ => .ok (.httpResp 404 ())

/-- An operation that raises `ConnectionError` on the first four attempts and
returns a 200-status response on the fifth. -/
def conn4then200 : Nat → CallOutcome Unit := fun k =>
  if k < 4 then .connectionError else .ok (.httpResp 200 ())

/-- Claim C1, counterexample: with a transient error on every attempt,
`make_request` returns `None` after exactly 5 attempts but performs 5 sleeps,
not the 4 inter-attempt pauses the claim states: the `if try_again:` block also
sleeps after the fifth (final) failed attempt, before the loop condition
`attempts < MAX_ATTEMPTS` fails. -/
theorem make_request_all_transient_five_sleeps :
    (make_request allConnErr).res = none ∧
    (make_request allConnErr).calls = 5 ∧
    (make_request allConnErr).sleeps ≠ 4 := by
  refine ⟨rfl, rfl, ?_⟩
  decide

/-- Claim C1, amended: for every operation raising a transient error (connection
failure or read timeout) on each of the first 5 attempts, `make_request` returns
`None` having performed exactly 5 attempts and exactly 5 pauses (one pause follows
every failed attempt, including the last), logging each failure. -/
theorem make_request_all_transient (op : Nat → CallOutcome α)
    (h : ∀ k, k < 5 → op k = .connectionError ∨ op k = .readTimeout) :
    make_request op = ⟨none, 5, 5, 5⟩ := by
  have h0 := h 0 (by norm_num)
  have h1 := h 1 (by norm_num)
  have h2 := h 2 (by norm_num)
  have h3 := h 3 (by norm_num)
  have h4 := h 4 (by norm_num)
  unfold make_request
  rcases h0 with h0 | h0 <;> rcases h1 with h1 | h1 <;> rcases h2 with h2 | h2 <;>
    rcases h3 with h3 | h3 <;> rcases h4 with h4 | h4 <;>
    simp [mrLoop, h0, h1, h2, h3, h4]

/-- Witness for the amended C1 at the concrete always-connection-error operation. -/
theorem make_request_all_transient_witness :
    make_request allConnErr = ⟨none, 5, 5, 5⟩ :=
  make_request_all_transient allConnErr (fun _ _ => Or.inl rfl)

/-- Claim C5: for every operation returning a response object whose `status_code`
is not 200, `make_request` logs the failure and returns `None` after the first
attempt, performing zero retries and zero pauses. -/
theorem make_request_non200 (op : Nat → CallOutcome α) (s : Nat) (b : α)
    (h : op 0 = .ok (.httpResp s b)) (hs : s ≠ 200) :
    make_request op = ⟨none, 1, 0, 1⟩ := by
  unfold make_request
  simp [mrLoop, h, hs]

/-- Witness for C5 at a concrete 404 response. -/
theorem make_request_non200_witness :
    make_request resp404 = ⟨none, 1, 0, 1⟩ :=
  make_request_non200 resp404 404 () rfl (by norm_num)

/-- Claim C6: for every operation raising a transient error on each of the first 4
attempts and returning a status-200 response on the 5th, `make_request` returns
that success result and has slept exactly 4 times. -/
theorem make_request_success_on_fifth (op : Nat → CallOutcome α) (b : α)
    (h : ∀ k, k < 4 → op k = .connectionError ∨ op k = .readTimeout)
    (h4 : op 4 = .ok (.httpResp 200 b)) :
    make_request op = ⟨some (.httpResp 200 b), 5, 4, 4⟩ := by
  have h0 := h 0 (by norm_num)
  have h1 := h 1 (by norm_num)
  have h2 := h 2 (by norm_num)
  have h3 := h 3 (by norm_num)
  unfold make_request
  rcases h0 with h0 | h0 <;> rcases h1 with h1 | h1 <;> rcases h2 with h2 | h2 <;>
    rcases h3 with h3 | h3 <;> simp [mrLoop, h0, h1, h2, h3, h4]

/-- Witness for C6 at the concrete four-connection-errors-then-200 operation. -/
theorem make_request_success_on_fifth_witness :
    make_request conn4then200 = ⟨some (.httpResp 200 ()), 5, 4, 4⟩ :=
  make_request_success_on_fifth conn4then200 ()
    (fun k hk => Or.inl (by simp [conn4then200, hk])) (by simp [conn4then200])

/-- One item of a Libraries.io search page: the `{name, repository_url}` fields
`fetch_packagenames_from_libraryio` reads. -/
structure SearchItem where
  name : String
  repository_url : String
  deriving DecidableEq, Repr

/-- Outcome of `fetch_packagenames_from_libraryio`.  The function can terminate
normally (carrying the number of pages requested), or abort with one of two
uncaught Python exceptions:
* `nameErrorPackage`: the loop body executes `Package.get_or_create(...)`, but the
  module's imports bind only `NPMPackage` / `PyPIPackage` (no name `Package`), so
  the first item of a nonempty page raises `NameError`;
* `typeErrorLenNone`: when `make_request` returned `None`, the guarded `for` block
  is skipped but `count_retrieved += len(packages)` still runs, and `len(None)`
  raises `TypeError`. -/
inductive PagFetchResult where
  | done (pages_requested : Nat)
  | nameErrorPackage (page : Nat)
  | typeErrorLenNone (page : Nat)
  | outOfFuel
  deriving DecidableEq, Repr

/-- The `while keep_fetching` loop of `fetch_packagenames_from_libraryio`
(src/fetch_packages.py lines 65-94).  `pages n` is the `make_request` result for
page `n` (`none` models `None`).  Fuel bounds the unbounded source loop; since
every nonempty page raises `NameError` and an empty page makes
`keep_fetching` false, no run needs more than one unit. -/
def fetch_packagenames_loop (pages : Nat → Option (List SearchItem))
    (package_count : Int) : Nat → Nat → Nat → PagFetchResult
  | 0, _, _ => .outOfFuel
  | fuel+1, page_no, count_retrieved =>
      match pages page_no with
      | none => .typeErrorLenNone page_no
      | some packages =>
          if packages.length > 0 then .nameErrorPackage page_no
          else
            let count2 := count_retrieved + packages.length
            let keep := decide (packages.length > 0) &&
              (package_count == -1 || decide ((count2 : Int) < package_count))
            if keep then fetch_packagenames_loop pages package_count fuel (page_no+1) count2
            else .done (page_no+1)

/-- `fetch_packagenames_from_libraryio(package_count)`: run the page loop from
`page_no = 0`, `count_retrieved = 0`. -/
def fetch_packagenames_from_libraryio (pages : Nat → Option (List SearchItem))
    (package_count : Int) (fuel : Nat) : PagFetchResult :=
  fetch_packagenames_loop pages package_count fuel 0 0

/-- Replace every occurrence of the character `a` by `b`, as Python's
`str.replace` does for single-character arguments. -/
def pyReplaceChar (a b : Char) (s : String) : String :=
  ⟨s.data.map (fun c => if c = a then b else c)⟩

/-- A row of one of the two package tables, with the fields `fetch_pypi_*` touch.
Detail fields start unset (`none` models SQL NULL / "not yet fetched"). -/
structure PyPIRecord where
  name : String
  readme : Option String := none
  description : Option String := none
  day_download_count : Option Int := none
  week_download_count : Option Int := none
  month_download_count : Option Int := none
  deriving DecidableEq, Repr

/-- Modelled from the spec: the Persistence Gateway (`models.py`, not under
`src/`) exposes find-or-create by the natural key `name`; peewee's
`get_or_create`, invoked by the fetchers with `name` as the only lookup field,
returns the existing record unchanged when one with that name exists, and
otherwise appends a fresh record with that name and default (unset) detail
fields. -/
def pypi_get_or_create (db : List PyPIRecord) (n : String) : List PyPIRecord :=
  if db.any (fun r => r.name == n) then db else db ++ [{ name := n }]

/-- Normalization `fetch_pypi_package_list` applies to a link's display text:
`link.text.replace(u'\xa0', ' ')`. -/
def normalize_link_text (s : String) : String :=
  pyReplaceChar (Char.ofNat 160) ' ' s

/-- `fetch_pypi_package_list` (src/fetch_packages.py lines 182-210).  `res` is the
`make_request` result for the index page, abstracted to the parsed rows: each row
is `some linkText` when the row has a hyperlink, else `none`.  The source
dereferences `res.content` with no `None` guard, so `res = none` raises
`AttributeError`.  Returns the table and the `num_fetched` counter. -/
def fetch_pypi_package_list (res : Option (List (Option String)))
    (db : List PyPIRecord) : Except String (List PyPIRecord × Nat) :=
  match res with
  | none => .error "AttributeError: NoneType object has no attribute content"
  | some rows =>
      .ok (rows.foldl (fun acc row =>
        match row with
        | none => acc
        | some linkText => (pypi_get_or_create acc.1 (normalize_link_text linkText), acc.2 + 1))
        (db, 0))

/-- The JSON shape `fetch_pypi_data` reads: `info.downloads.{last_day,last_week,
last_month}`, `info.summary`, `info.description`. -/
structure PyPIJson where
  last_day : Int
  last_week : Int
  last_month : Int
  summary : String
  description : String
  deriving DecidableEq, Repr

/-- The name formatting of `fetch_pypi_data`:
`p.name.replace(' ', '/').replace(u'\xa0', '/')`. -/
def pyFormatName (s : String) : String :=
  pyReplaceChar (Char.ofNat 160) '/' (pyReplaceChar ' ' '/' s)

/-- The `for p in packages` loop of `fetch_pypi_data` (src/fetch_packages.py
lines 213-252).  `net n` is the `make_request` result for the detail URL built
from formatted name `n`: `none` models `None`; `some none` a response whose body
is not valid JSON (`res.json()` raises `ValueError`); `some (some j)` a response
parsing to `j`.  The `ValueError` handler only logs, after which the source still
evaluates `package_json['info']`: the Python local `package_json` keeps the value
from the last successful parse (threaded here as the second argument), and if no
parse has succeeded yet it is unbound and `NameError` aborts the batch. -/
def fetch_pypi_data_loop (net : String → Option (Option PyPIJson)) :
    List PyPIRecord → Option PyPIJson → Except String (List PyPIRecord)
  | [], _ => .ok []
  | p :: rest, package_json =>
      match net (pyFormatName p.name) with
      | none =>
          match fetch_pypi_data_loop net rest package_json with
          | .ok r => .ok (p :: r)
          | .error e => .error e
      | some parsed =>
          match (match parsed with | some j => some j | none => package_json : Option PyPIJson) with
          | none => .error "NameError: name package_json is not defined"
          | some j =>
              let p2 := { p with
                day_download_count := some j.last_day,
                week_download_count := some j.last_week,
                month_download_count := some j.last_month,
                description := some j.summary,
                readme := some j.description }
              match fetch_pypi_data_loop net rest (some j) with
              | .ok r => .ok (p2 :: r)
              | .error e => .error e

/-- `fetch_pypi_data(packages)`: the local `package_json` is initially unbound. -/
def fetch_pypi_data (net : String → Option (Option PyPIJson))
    (packages : List PyPIRecord) : Except String (List PyPIRecord) :=
  fetch_pypi_data_loop net packages none

/-- Claim C2, evidence of divergence: a `make_request` failure is NOT contained to
the failing item.  In the catalog-list fetch, an index request returning no result
raises `AttributeError` (`res.content` on `None`); in the paginated name fetch, a
page request returning no result raises `TypeError` (`len(None)`).  Both abort the
whole batch instead of skipping and continuing. -/
theorem network_failures_abort_batch :
    fetch_pypi_package_list none [] =
      .error "AttributeError: NoneType object has no attribute content" ∧
    fetch_packagenames_from_libraryio (fun _ => none) (-1) 10 =
      .typeErrorLenNone 0 := by
  exact ⟨rfl, rfl⟩

/-- A JSON value used in the stale-data scenario for claim C3. -/
def jA : PyPIJson := ⟨1, 2, 3, "sumA", "descA"⟩

/-- A network oracle for C3's second scenario: package "a" gets valid JSON `jA`,
package "b" gets a response whose body fails to parse. -/
def netStale : String → Option (Option PyPIJson) := fun n =>
  if n = "a" then some (some jA) else some none

/-- Claim C3, evidence of divergence: a response failing to parse as JSON does NOT
leave the record unchanged.  With a single package whose response is invalid
JSON, `fetch_pypi_data` aborts with `NameError` (no `package_json` is bound yet);
with a valid parse for "a" followed by a parse failure for "b", the stale value
`jA` is written onto record "b" and saved. -/
theorem parse_failure_not_contained :
    fetch_pypi_data (fun _ => some none) [{ name := "pkg" }] =
      .error "NameError: name package_json is not defined" ∧
    fetch_pypi_data netStale [{ name := "a" }, { name := "b" }] =
      .ok [{ name := "a", readme := some "descA", description := some "sumA",
             day_download_count := some 1, week_download_count := some 2,
             month_download_count := some 3 },
           { name := "b", readme := some "descA", description := some "sumA",
             day_download_count := some 1, week_download_count := some 2,
             month_download_count := some 3 }] := by
  exact ⟨rfl, rfl⟩

/-- The two-page search endpoint of claim C4's scenario: page 0 has two items,
every later page is empty. -/
def pagesTwo : Nat → Option (List SearchItem) := fun n =>
  if n = 0 then some [⟨"a", "u1"⟩, ⟨"b", "u2"⟩] else some []

/-- Claim C4, evidence of divergence: on the two-page scenario the paginated list
fetch does not create two records and stop after page 1 — it aborts on the first
item of page 0 with `NameError`, because the name `Package` is not bound by the
module's imports (`models` exports `NPMPackage`), so no record is ever created. -/
theorem libraryio_fetch_nameerror :
    fetch_packagenames_from_libraryio pagesTwo (-1) 10 = .nameErrorPackage 0 := rfl

/-- Claim C7: for every package name already present in the table, find-or-create
as invoked by the fetchers (lookup on the `name` field alone) returns the table
unchanged: no duplicate record is created and no field of the existing record is
altered. -/
theorem get_or_create_idempotent (db : List PyPIRecord) (n : String)
    (h : ∃ r ∈ db, r.name = n) :
    pypi_get_or_create db n = db := by
  unfold pypi_get_or_create
  obtain ⟨r, hr, hn⟩ := h
  rw [if_pos]
  exact List.any_eq_true.mpr ⟨r, hr, by simp [hn]⟩

/-- Witness for C7 at a concrete one-record table. -/
theorem get_or_create_idempotent_witness :
    pypi_get_or_create [{ name := "a" }] "a" = [{ name := "a" }] :=
  get_or_create_idempotent [{ name := "a" }] "a" ⟨{ name := "a" }, by simp, rfl⟩

/-- `startsWithChars pat l`: `pat` is an initial segment of `l`. -/
def startsWithChars : List Char → List Char → Bool
  | [], _ => true
  | _ :: _, [] => false
  | p :: ps, c :: cs => p == c && startsWithChars ps cs

/-- `containsChars pat l`: `pat` occurs as a contiguous segment of `l`;
models Python's `pat in s` substring test. -/
def containsChars (pat : List Char) : List Char → Bool
  | [] => startsWithChars pat []
  | c :: rest => startsWithChars pat (c :: rest) || containsChars pat rest

/-- Does the regex fragment `github.com` (the `.` a single-character wildcard
that, as in Python `re`, does not match a newline) match at the head of the
list?  If so, return what follows the 10 matched characters. -/
def gMatchHere : List Char → Option (List Char)
  | 'g' :: 'i' :: 't' :: 'h' :: 'u' :: 'b' :: w :: 'c' :: 'o' :: 'm' :: rest =>
      if w = '\n' then none else some rest
  | _ => none

/-- The suffix following the last match of `^.*(?:github.com)`: the greedy `.*`
makes `re.sub` delete through the last position where the `github.com` fragment
matches, subject to the prefix before the match containing no newline (`^` is
anchored and `.*` cannot cross a newline).  `none` when the regex does not match
at all. -/
def lastGithubTail : List Char → Option (List Char)
  | [] => none
  | c :: rest =>
      match (if c = '\n' then none else lastGithubTail rest) with
      | some t => some t
      | none => gMatchHere (c :: rest)

/-- `re.sub('^.*(?:github.com)', '', url)` (src/fetch_packages.py line 99):
delete the longest prefix ending in a `github.com` match; when the regex does not
match, `re.sub` returns the string unchanged. -/
def re_sub_github (l : List Char) : List Char :=
  match lastGithubTail l with
  | some t => t
  | none => l

/-- Split off the part of `l` before the first `'/'`; `none` when `l` has no
`'/'`.  Building block for Python's `str.split('/', 2)`. -/
def splitFirstSlash : List Char → Option (List Char × List Char)
  | [] => none
  | c :: rest =>
      if c = '/' then some ([], rest)
      else
        match splitFirstSlash rest with
        | none => none
        | some (a, b) => some (c :: a, b)

/-- Python's `l.split('/', 2)`: at most two splits, so at most three parts. -/
def pySplit2Slash (l : List Char) : List (List Char) :=
  match splitFirstSlash l with
  | none => [l]
  | some (a, r1) =>
      match splitFirstSlash r1 with
      | none => [a, r1]
      | some (b, r2) => [a, b, r2]

/-- `github_info(url)` (src/fetch_packages.py lines 97-103).  When the literal
marker `github.com` occurs in the URL, strip through the regex match and split
the remainder on the first two `'/'`; the tuple unpacking
`_, user, repo_name = url.split('/', 2)` raises `ValueError` when the split
yields fewer than three parts.  Without the marker, return `None`. -/
def github_info (url : String) : Except String (Option (String × String)) :=
  if containsChars "github.com".data url.data then
    match pySplit2Slash (re_sub_github url.data) with
    | [_, user, repo_name] => .ok (some (⟨user⟩, ⟨repo_name⟩))
    | _ => .error "ValueError: unpacking"
  else .ok none

/-- The 6-bit value of a standard-alphabet base64 character. -/
def b64val (c : Char) : Option Nat :=
  if 'A' ≤ c ∧ c ≤ 'Z' then some (c.toNat - 65)
  else if 'a' ≤ c ∧ c ≤ 'z' then some (c.toNat - 97 + 26)
  else if '0' ≤ c ∧ c ≤ '9' then some (c.toNat - 48 + 52)
  else if c = '+' then some 62
  else if c = '/' then some 63
  else none

/-- Decode one 4-character base64 group to its 1, 2 or 3 bytes, honouring `'='`
padding. -/
def b64chunk (a b c d : Char) : Option (List Nat) :=
  match b64val a, b64val b with
  | some va, some vb =>
      if c = '=' ∧ d = '=' then some [va * 4 + vb / 16]
      else if d = '=' then
        match b64val c with
        | some vc => some [va * 4 + vb / 16, (vb % 16) * 16 + vc / 4]
        | none => none
      else
        match b64val c, b64val d with
        | some vc, some vd =>
            some [va * 4 + vb / 16, (vb % 16) * 16 + vc / 4, (vc % 4) * 64 + vd]
        | _, _ => none
  | _, _ => none

/-- Decode a base64 character list to bytes: whole 4-character groups, padding
allowed only in the final group; `none` on malformed input (where Python's
`base64.b64decode` raises). -/
def b64decodeList : List Char → Option (List Nat)
  | [] => some []
  | a :: b :: c :: d :: rest =>
      if c = '=' ∨ d = '=' then
        if rest = [] then b64chunk a b c d else none
      else
        match b64chunk a b c d, b64decodeList rest with
        | some h, some t => some (h ++ t)
        | _, _ => none
  | _ => none

/-- `base64.b64decode` on a string, the decoded bytes read back as characters
(the source is Python 2, where the result is a byte string). -/
def b64decode (s : String) : Option String :=
  (b64decodeList s.data).map (fun bytes => ⟨bytes.map Char.ofNat⟩)

/-- A row of the NPM package table with the fields `fetch_github_readmes`
touches. -/
structure NPMRecord where
  name : String
  repository_url : String
  readme : Option String := none
  deriving DecidableEq, Repr

/-- `fetch_github_readmes(packages)` (src/fetch_packages.py lines 106-121).
`net user repo` is the `make_request` result for the readme endpoint: `none`
models `None`, `some content` a slumber object whose `content` field holds the
base64 string.  A record without a GitHub URL is skipped with a log note; a
`ValueError` escaping `github_info`, or a `binascii` error from `b64decode`,
aborts the batch. -/
def fetch_github_readmes (net : String → String → Option String) :
    List NPMRecord → Except String (List NPMRecord)
  | [] => .ok []
  | p :: rest =>
      match github_info p.repository_url with
      | .error e => .error e
      | .ok none =>
          match fetch_github_readmes net rest with
          | .ok r => .ok (p :: r)
          | .error e => .error e
      | .ok (some (user, repo_name)) =>
          match net user repo_name with
          | none =>
              match fetch_github_readmes net rest with
              | .ok r => .ok (p :: r)
              | .error e => .error e
          | some content =>
              match b64decode content with
              | none => .error "binascii.Error"
              | some txt =>
                  match fetch_github_readmes net rest with
                  | .ok r => .ok ({ p with readme := some txt } :: r)
                  | .error e => .error e

/-- Strip leading and trailing whitespace, as Python's `int(str)` does before
reading the numeral. -/
def pyStripSpaces (l : List Char) : List Char :=
  ((l.dropWhile Char.isWhitespace).reverse.dropWhile Char.isWhitespace).reverse

/-- The numeric value of a list of decimal digit characters. -/
def digitsVal (l : List Char) : Nat :=
  l.foldl (fun a c => a * 10 + (c.toNat - 48)) 0

/-- The numeral part of Python's `int(str)`: after stripping whitespace, an
optional sign followed by a nonempty run of decimal digits; anything else raises
`ValueError` (modelled as `none`). -/
def pyIntCore (l : List Char) : Option Int :=
  if l ≠ [] ∧ l.all Char.isDigit then some ((digitsVal l : Nat) : Int)
  else
    match l with
    | '+' :: ds =>
        if ds ≠ [] ∧ ds.all Char.isDigit then some ((digitsVal ds : Nat) : Int) else none
    | '-' :: ds =>
        if ds ≠ [] ∧ ds.all Char.isDigit then some (-((digitsVal ds : Nat) : Int)) else none
    | _ => none

/-- Python's `int(s)` on a string. -/
def pyIntOfString (s : String) : Option Int :=
  pyIntCore (pyStripSpaces s.data)

/-- `s.replace(',', '')`: remove every comma. -/
def removeCommas (s : String) : String :=
  ⟨s.data.filter (fun c => c ≠ ',')⟩

/-- The download-count parser of `fetch_npm_data` (src/fetch_packages.py line
161): `lambda s: int(s.replace(',', '')) if s != '' else 0`. -/
def to_count (s : String) : Option Int :=
  if s ≠ "" then pyIntOfString (removeCommas s) else some ((0 : Nat) : Int)

theorem digit_not_ws (c : Char) (h : c.isDigit = true) : c.isWhitespace = false := by
  by_contra hw
  rw [Bool.not_eq_false] at hw
  simp [Char.isWhitespace] at hw
  rcases hw with ((rfl | rfl) | rfl) | rfl <;> exact absurd h (by decide)

theorem dropWhile_ws_of_digits (l : List Char) (h : ∀ c ∈ l, c.isDigit = true) :
    l.dropWhile Char.isWhitespace = l := by
  cases l with
  | nil => rfl
  | cons c rest =>
      rw [List.dropWhile_cons, if_neg]
      simp [digit_not_ws c (h c (List.mem_cons_self c rest))]

theorem pyStripSpaces_of_digits (l : List Char) (h : ∀ c ∈ l, c.isDigit = true) :
    pyStripSpaces l = l := by
  unfold pyStripSpaces
  rw [dropWhile_ws_of_digits l h,
    dropWhile_ws_of_digits l.reverse (fun c hc => h c (List.mem_reverse.mp hc)),
    List.reverse_reverse]

/-- Claim C8: the download-count parser maps any digit string with thousands
separators (every character a digit or a comma, at least one digit) to the
integer whose decimal digits remain after the commas are removed, and maps the
empty string to 0. -/
theorem to_count_digits (s : String)
    (hchars : ∀ c ∈ s.data, c.isDigit = true ∨ c = ',')
    (hne : 0 < (s.data.filter (fun c => c ≠ ',')).length) :
    to_count s = some ((digitsVal (s.data.filter (fun c => c ≠ ',')) : Nat) : Int) ∧
    to_count "" = some 0 := by
  constructor
  · have hsne : s ≠ "" := by
      intro hs
      rw [hs] at hne
      simp at hne
    have hdig : ∀ c ∈ s.data.filter (fun c => c ≠ ','), c.isDigit = true := by
      intro c hc
      rw [List.mem_filter] at hc
      rcases hchars c hc.1 with h | h
      · exact h
      · exact absurd h (of_decide_eq_true hc.2)
    unfold to_count
    rw [if_pos hsne]
    unfold pyIntOfString removeCommas
    show pyIntCore (pyStripSpaces (s.data.filter (fun c => c ≠ ','))) = _
    rw [pyStripSpaces_of_digits _ hdig]
    unfold pyIntCore
    rw [if_pos ⟨List.ne_nil_of_length_pos hne, List.all_eq_true.mpr hdig⟩]
  · decide

/-- Witness for C8 at the spec's examples: "1,234" parses to 1234 and "" to 0. -/
theorem to_count_digits_witness :
    to_count "1,234" = some 1234 ∧ to_count "" = some 0 := by
  have h := to_count_digits "1,234" (by decide) (by decide)
  exact ⟨h.1.trans (by decide), h.2⟩

theorem splitFirstSlash_append (pre rest : List Char) (hpre : '/' ∉ pre) :
    splitFirstSlash (pre ++ '/' :: rest) = some (pre, rest) := by
  induction pre with
  | nil => simp [splitFirstSlash]
  | cons c cs ih =>
      have hc : ¬ (c = '/') := fun h => hpre (h ▸ List.mem_cons_self c cs)
      have ih2 := ih (fun h => hpre (List.mem_cons_of_mem c h))
      simp [splitFirstSlash, hc, ih2]

/-- Claim C9, counterexample: "https://github.com/foo" contains the marker, but
`github_info` does not return an (owner, repo) pair — stripping leaves "/foo",
the split yields only two parts, and the three-name tuple unpacking raises
`ValueError`. -/
theorem github_info_short_url_valueerror :
    containsChars "github.com".data "https://github.com/foo".data = true ∧
    github_info "https://github.com/foo" = .error "ValueError: unpacking" :=
  ⟨rfl, rfl⟩

/-- Claim C9, amended: if the URL contains the marker and the remainder after
stripping everything up through the (last occurrence of the) marker decomposes as
`pre ++ "/" ++ owner ++ "/" ++ repo` with `pre` and `owner` slash-free (i.e. the
remainder has at least two '/'), `github_info` returns the pair (owner, repo),
where repo may itself contain '/'; a URL without the marker yields `None`, and
the readme fetch then skips that record, leaving it unchanged.  (If the remainder
has fewer than two '/', the tuple unpacking raises `ValueError` instead.) -/
theorem github_info_spec :
    (∀ (url : String) (pre user repo : List Char),
      containsChars "github.com".data url.data = true →
      re_sub_github url.data = pre ++ '/' :: user ++ '/' :: repo →
      '/' ∉ pre → '/' ∉ user →
      github_info url = .ok (some (⟨user⟩, ⟨repo⟩))) ∧
    (∀ url : String, containsChars "github.com".data url.data = false →
      github_info url = .ok none) ∧
    (∀ (net : String → String → Option String) (p : NPMRecord),
      containsChars "github.com".data p.repository_url.data = false →
      fetch_github_readmes net [p] = .ok [p]) := by
  refine ⟨?_, ?_, ?_⟩
  · intro url pre user repo hmark hdec hpre huser
    unfold github_info
    rw [if_pos hmark, hdec]
    have h1 := splitFirstSlash_append pre (user ++ '/' :: repo) hpre
    have h2 := splitFirstSlash_append user repo huser
    simp [pySplit2Slash, h1, h2]
  · intro url h
    simp [github_info, h]
  · intro net p h
    have hg : github_info p.repository_url = .ok none := by simp [github_info, h]
    simp [fetch_github_readmes, hg]

/-- Witness for the amended C9: the spec's positive example. -/
theorem github_info_spec_witness :
    github_info "https://github.com/foo/bar/tree/master" =
      .ok (some ("foo", "bar/tree/master")) :=
  github_info_spec.1 "https://github.com/foo/bar/tree/master" []
    "foo".data "bar/tree/master".data rfl rfl (by decide) (by decide)

/-- Claim C10: for every package record whose repository URL yields a GitHub
identity (user, repo) and a readme endpoint returning an object whose `content`
field is the base64 string "SGVsbG8=", the readme fetch decodes it and persists
"Hello" as that record's readme. -/
theorem fetch_github_readmes_decodes (n url user repo : String)
    (net : String → String → Option String)
    (hgh : github_info url = .ok (some (user, repo)))
    (hnet : net user repo = some "SGVsbG8=") :
    fetch_github_readmes net [⟨n, url, none⟩] = .ok [⟨n, url, some "Hello"⟩] := by
  simp [fetch_github_readmes, hgh, hnet]
  rfl

/-- A readme endpoint that always returns base64 content "SGVsbG8=". -/
def netHello : String → String → Option String := fun _ _ => some "SGVsbG8="

/-- Witness for C10 at a concrete record and endpoint. -/
theorem fetch_github_readmes_decodes_witness :
    fetch_github_readmes netHello [⟨"pkg", "https://github.com/foo/bar", none⟩] =
      .ok [⟨"pkg", "https://github.com/foo/bar", some "Hello"⟩] :=
  fetch_github_readmes_decodes "pkg" "https://github.com/foo/bar" "foo" "bar"
    netHello rfl rfl

end FetchPackages
